import Mathlib

/-!
Shallow embedding of the two FastAPI service variants of this repository:
src/app.py (the minimal variant) and src/deploy.py (the telemetry
variant). Pure request handling is translated into Lean functions; the
two mutable process globals of deploy.py (app_state and model) become an
explicit ServiceState threaded through a step function. The remote fetch
and joblib deserialization are external IO and enter the embedding only
through their outcome, a LoadResult. Wall-clock latency values are not
modelled.
-/

namespace Iris

/-- A Python float value as it reaches the validated model input: either
a finite value (modelled by a rational) or one of the IEEE non-finite
values NaN, positive infinity, negative infinity. -/
inductive PyFloat
  | finite (q : ℚ)
  | nan
  | inf
  | neginf
  deriving DecidableEq

/-- Whether a PyFloat is a finite real number. -/
def PyFloat.isFinite : PyFloat → Bool
  | .finite _ => true
  | _ => false

/-- A JSON scalar as the Python json parser yields it for one
request-body field. The Python json module accepts the non-standard
tokens NaN, Infinity and -Infinity, producing non-finite floats. String
fields split into those that parse as a float (numstr, carrying the
parsed value) and those that do not (str). -/
inductive JVal
  | num (q : ℚ)
  | nan
  | inf
  | neginf
  | numstr (q : ℚ)
  | str (s : String)
  | null
  deriving DecidableEq

/-- The pydantic float-field coercion under its default configuration:
any numeric token is accepted, including the non-finite ones (the
allow_inf_nan default is permissive), as is a string that parses as a
float; a non-numeric string or null is rejected. -/
def coerceFloat : JVal → Option PyFloat
  | .num q => some (.finite q)
  | .nan => some .nan
  | .inf => some .inf
  | .neginf => some .neginf
  | .numstr q => some (.finite q)
  | .str _ => none
  | .null => none

/-- A four-field request body as received over HTTP: each field may be
absent. -/
structure RequestBody where
  sepal_length : Option JVal
  sepal_width : Option JVal
  petal_length : Option JVal
  petal_width : Option JVal
  deriving DecidableEq

/-- class IrisInput of src/app.py lines 30 to 34, and the identical
class Input of src/deploy.py lines 36 to 40: four required float
fields. -/
structure IrisInput where
  sepal_length : PyFloat
  sepal_width : PyFloat
  petal_length : PyFloat
  petal_width : PyFloat
  deriving DecidableEq

/-- The deploy.py schema has the same four float fields as IrisInput. -/
abbrev Input := IrisInput

/-- pydantic validation of one required float field: an absent field or a
non-coercible value fails. -/
def validateField : Option JVal → Option PyFloat
  | none => none
  | some v => coerceFloat v

/-- pydantic validation of a whole body against IrisInput or Input: all
four fields must be present and coercible to float, otherwise the
request is rejected with a 422 validation error before the handler
body runs. -/
def validateBody (b : RequestBody) : Option IrisInput :=
  match validateField b.sepal_length, validateField b.sepal_width,
        validateField b.petal_length, validateField b.petal_width with
  | some sl, some sw, some pl, some pw => some ⟨sl, sw, pl, pw⟩
  | _, _, _, _ => none

/-- src/app.py lines 103 to 108 and src/deploy.py lines 107 to 112: the
inner list of the nested list passed to model.predict, in field
order. -/
def IrisInput.toFeatures (i : IrisInput) : List PyFloat :=
  [i.sepal_length, i.sepal_width, i.petal_length, i.petal_width]

/-- The raw model output for one vector: an sklearn classifier yields
either a string class name or an integer class index (spec section 3,
RawLabel). -/
inductive RawLabel
  | str (s : String)
  | idx (n : Int)
  deriving DecidableEq

/-- The loaded model: one capability, a deterministic predict over a
feature vector that may raise, modelled as Except carrying the
exception text. The Python call predict(X)[0] on the singleton batch X
is modelled directly on the single vector. -/
structure Model where
  predict : List PyFloat → Except String RawLabel

/-- label_map of src/app.py line 117, read through the Python dict.get
partial lookup. -/
def label_map : Int → Option String := fun n =>
  if n = 0 then some "setosa"
  else if n = 1 then some "versicolor"
  else if n = 2 then some "virginica"
  else none

/-- SPECIES_MAP of src/deploy.py lines 44 to 48, read through the Python
dict.get partial lookup. -/
def SPECIES_MAP : Int → Option String := fun n =>
  if n = 0 then some "setosa"
  else if n = 1 then some "versicolor"
  else if n = 2 then some "virginica"
  else none

/-- Label normalization of src/app.py lines 113 to 118: a string result
passes through unchanged; otherwise the lookup of int of the result
defaults to the literal string unknown. On a RawLabel.idx value the int
coercion is the identity. -/
def speciesApp : RawLabel → String
  | .str s => s
  | .idx n => (label_map n).getD "unknown"

/-- Label normalization of src/deploy.py lines 117 to 120: a string
result passes through unchanged; otherwise the lookup of int of the
result defaults to str of the raw value, its string form. -/
def speciesDeploy : RawLabel → String
  | .str s => s
  | .idx n => (SPECIES_MAP n).getD (toString n)

/-- Responses of the predict handler of src/app.py: the success body of
lines 120 to 124, carrying the raw prediction and the species, or an
HTTPException with a status code and a detail string. -/
inductive AppPredictResult
  | success (predicted_label : RawLabel) (species : String)
  | httpError (code : Nat) (detail : String)
  deriving DecidableEq

/-- predict of src/app.py lines 97 to 127. The 503 guard at lines 100
to 101 runs before the try block, so it is not caught; inside the try, a
model exception is caught at line 126 and re-raised as a 500 whose
detail string interpolates the exception text (line 127). -/
def appPredict (model : Option Model) (features : IrisInput) : AppPredictResult :=
  match model with
  | none => .httpError 503 "Model not loaded. Try again later."
  | some m =>
    match m.predict features.toFeatures with
    | .ok y_pred => .success y_pred (speciesApp y_pred)
    | .error e => .httpError 500 ("Prediction failed: " ++ e)

/-- The success payload of src/deploy.py lines 124 to 130, latency
omitted: status, predicted_label, species, trace_id. -/
structure DeployPayload where
  status : String
  predicted_label : String
  species : String
  trace_id : String
  deriving DecidableEq

/-- Responses of the predict handler of src/deploy.py: the success
payload or an HTTPException with status code and detail. -/
inductive DeployPredictResult
  | success (p : DeployPayload)
  | httpError (code : Nat) (detail : String)
  deriving DecidableEq

/-- predict of src/deploy.py lines 97 to 149. A missing model raises
RuntimeError inside the try block (lines 104 to 105); every exception
escaping the try body, that RuntimeError included, is caught at line 143
and re-raised as HTTPException with code 500 and the fixed detail, so
the not-loaded case surfaces as a 500, not a 503. On success both the
predicted_label and the species fields of the payload carry the
normalized label (lines 126 to 127). -/
def deployPredict (model : Option Model) (input : IrisInput) (trace_id : String) :
    DeployPredictResult :=
  match model with
  | none => .httpError 500 "Prediction failed"
  | some m =>
    match m.predict input.toFeatures with
    | .ok raw_pred => .success ⟨"success", speciesDeploy raw_pred,
        speciesDeploy raw_pred, trace_id⟩
    | .error _ => .httpError 500 "Prediction failed"

/-- The top-level exception_handler of src/deploy.py lines 82 to 95: it
receives the escaped exception text and the trace id, logs them, and
answers with status 500, a fixed generic detail and the trace id; the
exception text never reaches the response. -/
def exception_handler (exc : String) (trace_id : String) : Nat × String × String :=
  (500, "Internal Server Error", trace_id)

/-- Outcome of the startup artifact load (a GCS fetch plus joblib
deserialization in app.py, a plain joblib load in deploy.py): a model,
or an exception with its text — a missing credential file, a fetch
failure, a deserialization failure, or anything else. -/
inductive LoadResult
  | ok (m : Model)
  | err (e : String)

/-- on_startup of src/app.py lines 78 to 86: any load exception is
caught, logged, and the global model is set to None; the function is
total, so the process never crashes here. -/
def on_startup : LoadResult → Option Model
  | .ok m => some m
  | .err _ => none

/-- app_state of src/deploy.py line 33: the two service flags. -/
structure AppState where
  is_ready : Bool
  is_alive : Bool
  deriving DecidableEq

/-- The initial value of app_state at line 33: is_ready false, is_alive
true. -/
def app_state_init : AppState := ⟨false, true⟩

/-- startup_event of src/deploy.py lines 50 to 60: on success the model
global is set and is_ready becomes true; on any exception the handler
logs and sets is_ready false, the model global staying None. Returns
the new flags and the new model global; is_alive is never written. -/
def startup_event : LoadResult → AppState → AppState × Option Model
  | .ok m, s => (⟨true, s.is_alive⟩, some m)
  | .err _, s => (⟨false, s.is_alive⟩, none)

/-- A health-endpoint response: a 200 JSON body with a status string, or
a bare status code. -/
inductive HealthResponse
  | body (status : String)
  | code (statusCode : Nat)
  deriving DecidableEq

/-- live_check of src/deploy.py lines 62 to 66. -/
def live_check (s : AppState) : HealthResponse :=
  if s.is_alive then .body "alive" else .code 500

/-- ready_check of src/deploy.py lines 68 to 72. -/
def ready_check (s : AppState) : HealthResponse :=
  if s.is_ready then .body "ready" else .code 503

/-- The full mutable state of the deploy.py process: the app_state flags
and the model global. -/
structure ServiceState where
  state : AppState
  model : Option Model

/-- The process state right after boot, before the startup hook runs. -/
def service_init : ServiceState := ⟨app_state_init, none⟩

/-- The operations the deploy.py process executes after boot. -/
inductive Op
  | startup (r : LoadResult)
  | live
  | ready
  | predictReq (i : IrisInput) (tid : String)

/-- The state effect of each handler of src/deploy.py: only
startup_event assigns globals (is_ready and model); live_check,
ready_check and predict contain no assignment to app_state or model and
so leave the state unchanged. -/
def stepOp (st : ServiceState) : Op → ServiceState
  | .startup r =>
    let p := startup_event r st.state
    ⟨p.1, p.2⟩
  | .live => st
  | .ready => st
  | .predictReq _ _ => st

/-- The state reached after running a sequence of operations from
boot. -/
def run (ops : List Op) : ServiceState := ops.foldl stepOp service_init

/-- A full app.py request outcome: the 422 of failed pydantic
validation, or the handler result. -/
inductive AppResponse
  | validationError
  | ok (r : AppPredictResult)
  deriving DecidableEq

/-- A full deploy.py request outcome: the 422 of failed pydantic
validation, or the handler result. -/
inductive DeployResponse
  | validationError
  | ok (r : DeployPredictResult)
  deriving DecidableEq

/-- Request handling of src/app.py end to end: FastAPI runs pydantic
validation first; a body failing it is answered with a 422 and the
handler, hence model.predict, never runs. -/
def appHandle (m : Option Model) (b : RequestBody) : AppResponse :=
  match validateBody b with
  | none => .validationError
  | some i => .ok (appPredict m i)

/-- Request handling of src/deploy.py end to end, same validation
gate. -/
def deployHandle (m : Option Model) (b : RequestBody) (tid : String) : DeployResponse :=
  match validateBody b with
  | none => .validationError
  | some i => .ok (deployPredict m i tid)

/-- A concrete well-formed input used to instantiate theorems. -/
def sampleInput : IrisInput := ⟨.finite 5, .finite 3, .finite 1, .finite 2⟩

/-- A concrete body whose four fields validate to sampleInput. -/
def goodBody : RequestBody :=
  ⟨some (.num 5), some (.num 3), some (.num 1), some (.num 2)⟩

/-- A concrete malformed body: the sepal_length field is absent. -/
def badBody : RequestBody :=
  ⟨none, some (.num 1), some (.num 1), some (.num 1)⟩

/-- A concrete body whose sepal_length field is the NaN token. -/
def nanBody : RequestBody :=
  ⟨some .nan, some (.num 1), some (.num 1), some (.num 1)⟩

/-- The validated input nanBody produces: its first feature is NaN. -/
def nanInput : IrisInput := ⟨.nan, .finite 1, .finite 1, .finite 1⟩

/-- Helper: stepOp never writes is_alive. -/
theorem stepOp_is_alive (st : ServiceState) (op : Op) :
    (stepOp st op).state.is_alive = st.state.is_alive := by
  cases op with
  | startup r => cases r <;> rfl
  | live => rfl
  | ready => rfl
  | predictReq i tid => rfl

/-- Helper: is_alive true is invariant under any run fragment. -/
theorem foldl_is_alive (ops : List Op) (st : ServiceState)
    (h : st.state.is_alive = true) :
    (ops.foldl stepOp st).state.is_alive = true := by
  induction ops generalizing st with
  | nil => exact h
  | cons op rest ih =>
    exact ih (stepOp st op) (by rw [stepOp_is_alive]; exact h)

/-- C1 counterexample: in the deploy.py variant a predict request with no
model loaded is answered with status 500 and detail Prediction failed,
not with a 503, because the RuntimeError raised for the missing model is
swallowed by the generic except clause of the handler. -/
theorem c1_counterexample :
    deployPredict none sampleInput "0" =
      .httpError 500 "Prediction failed" ∧ (500 : Nat) ≠ 503 :=
  ⟨rfl, by decide⟩

/-- C1 (amended): with no model loaded, the app.py variant refuses
predict with a 503 service-unavailable, while the deploy.py variant
turns the not-loaded condition into a 500 with the fixed detail
Prediction failed; neither variant ever returns a success. -/
theorem c1_not_loaded (i : IrisInput) (tid : String) :
    appPredict none i = .httpError 503 "Model not loaded. Try again later." ∧
    deployPredict none i tid = .httpError 500 "Prediction failed" :=
  ⟨rfl, rfl⟩

/-- C2 counterexample: in the app.py variant a model exception with text
boom produces a 500 whose detail is the concatenation of the prefix and
the original exception text, so the exception text is returned to the
caller. -/
theorem c2_counterexample :
    appPredict (some (Model.mk fun _ => Except.error "boom")) sampleInput =
      .httpError 500 ("Prediction failed: " ++ "boom") := rfl

/-- C2 (amended): in deploy.py every unexpected exception yields a
generic body — the predict handler answers 500 with the fixed detail
Prediction failed whatever the exception text, and the top-level
exception_handler answers 500 with the fixed detail Internal Server
Error independently of the exception text; in app.py, by contrast, the
500 detail embeds the original exception text after the prefix
Prediction failed. -/
theorem c2_error_bodies (m : Model) (i : IrisInput) (tid e : String)
    (h : m.predict i.toFeatures = .error e) :
    deployPredict (some m) i tid = .httpError 500 "Prediction failed" ∧
    exception_handler e tid = (500, "Internal Server Error", tid) ∧
    (∀ e2 tid2, exception_handler e tid2 = exception_handler e2 tid2) ∧
    appPredict (some m) i = .httpError 500 ("Prediction failed: " ++ e) := by
  refine ⟨?_, rfl, fun _ _ => rfl, ?_⟩
  · simp only [deployPredict, h]
  · simp only [appPredict, h]

/-- C2 witness: the amended statement instantiated at a concrete failing
model. -/
theorem c2_error_bodies_witness :
    deployPredict (some (Model.mk fun _ => Except.error "oops")) sampleInput "t" =
      .httpError 500 "Prediction failed" :=
  (c2_error_bodies (Model.mk fun _ => Except.error "oops") sampleInput "t" "oops" rfl).1

/-- C3: on a successful model invocation, a string raw prediction passes
through unchanged as the species in both variants; an integer raw
prediction is looked up in the fixed table sending 0 to setosa, 1 to
versicolor and 2 to virginica; outside the table app.py yields the
literal unknown and deploy.py yields the raw value in string form, each
variant applying its one policy. -/
theorem c3_label_policy (m : Model) (i : IrisInput) (raw : RawLabel)
    (h : m.predict i.toFeatures = .ok raw) :
    appPredict (some m) i = .success raw (speciesApp raw) ∧
    (∀ tid, deployPredict (some m) i tid =
      .success ⟨"success", speciesDeploy raw, speciesDeploy raw, tid⟩) ∧
    (∀ s, speciesApp (.str s) = s ∧ speciesDeploy (.str s) = s) ∧
    speciesApp (.idx 0) = "setosa" ∧ speciesApp (.idx 1) = "versicolor" ∧
    speciesApp (.idx 2) = "virginica" ∧
    speciesDeploy (.idx 0) = "setosa" ∧ speciesDeploy (.idx 1) = "versicolor" ∧
    speciesDeploy (.idx 2) = "virginica" ∧
    (∀ n : Int, n ≠ 0 → n ≠ 1 → n ≠ 2 →
      speciesApp (.idx n) = "unknown" ∧ speciesDeploy (.idx n) = toString n) := by
  refine ⟨?_, fun tid => ?_, fun s => ⟨rfl, rfl⟩, rfl, rfl, rfl, rfl, rfl, rfl, ?_⟩
  · simp only [appPredict, h]
  · simp only [deployPredict, h]
  · intro n h0 h1 h2
    constructor
    · show (label_map n).getD "unknown" = "unknown"
      unfold label_map
      simp [h0, h1, h2]
    · show (SPECIES_MAP n).getD (toString n) = toString n
      unfold SPECIES_MAP
      simp [h0, h1, h2]

/-- C3 witness: the normalization applied to a concrete out-of-table
index through a concrete model. -/
theorem c3_label_policy_witness :
    appPredict (some (Model.mk fun _ => Except.ok (RawLabel.idx 5))) sampleInput =
      .success (.idx 5) (speciesApp (.idx 5)) :=
  (c3_label_policy (Model.mk fun _ => Except.ok (RawLabel.idx 5)) sampleInput
    (.idx 5) rfl).1

/-- C4: whatever text the startup load failure carries, app.py leaves its
model global None and deploy.py leaves is_ready false with the model
None and is_alive untouched; both startup handlers are total functions,
so the process does not crash, liveness still answers alive, readiness
answers 503, and both predict handlers refuse inference. -/
theorem c4_startup_failure (e : String) :
    on_startup (.err e) = none ∧
    (startup_event (.err e) app_state_init).1.is_ready = false ∧
    (startup_event (.err e) app_state_init).2 = none ∧
    (startup_event (.err e) app_state_init).1.is_alive = true ∧
    live_check (startup_event (.err e) app_state_init).1 = .body "alive" ∧
    ready_check (startup_event (.err e) app_state_init).1 = .code 503 ∧
    (∀ i, appPredict (on_startup (.err e)) i =
      .httpError 503 "Model not loaded. Try again later.") ∧
    (∀ i tid, deployPredict (startup_event (.err e) app_state_init).2 i tid =
      .httpError 500 "Prediction failed") :=
  ⟨rfl, rfl, rfl, rfl, rfl, rfl, fun _ => rfl, fun _ _ => rfl⟩

/-- C5: ready_check answers the ready body exactly when is_ready holds
and a bare 503 otherwise; after a successful startup load the service is
ready, and after a failed one ready_check answers 503 while live_check
still answers alive. -/
theorem c5_readiness :
    (∀ s : AppState, ready_check s = .body "ready" ↔ s.is_ready = true) ∧
    (∀ s : AppState, s.is_ready = false → ready_check s = .code 503) ∧
    (∀ m, ready_check (startup_event (.ok m) app_state_init).1 = .body "ready") ∧
    (∀ e, ready_check (startup_event (.err e) app_state_init).1 = .code 503 ∧
      live_check (startup_event (.err e) app_state_init).1 = .body "alive") := by
  refine ⟨fun s => ?_, fun s h => ?_, fun m => rfl, fun e => ⟨rfl, rfl⟩⟩
  · unfold ready_check
    cases h : s.is_ready <;> simp
  · unfold ready_check
    rw [h]
    simp

/-- C6: in every state reachable from boot by any sequence of startup,
health and predict operations, is_alive is true and live_check answers
the alive body; no operation of the service writes is_alive. -/
theorem c6_liveness (ops : List Op) :
    (run ops).state.is_alive = true ∧
    live_check (run ops).state = .body "alive" := by
  have h : (run ops).state.is_alive = true :=
    foldl_is_alive ops service_init rfl
  refine ⟨h, ?_⟩
  unfold live_check
  rw [h]
  simp

/-- C7: a body with an absent or non-coercible field fails validation,
so both variants answer with the validation error and the response does
not depend on the model, which is therefore never invoked. -/
theorem c7_validation (b : RequestBody)
    (h : validateField b.sepal_length = none ∨ validateField b.sepal_width = none ∨
         validateField b.petal_length = none ∨ validateField b.petal_width = none) :
    validateBody b = none ∧
    (∀ m, appHandle m b = .validationError) ∧
    (∀ m tid, deployHandle m b tid = .validationError) := by
  have hb : validateBody b = none := by
    rcases hv1 : validateField b.sepal_length with _ | sl <;>
    rcases hv2 : validateField b.sepal_width with _ | sw <;>
    rcases hv3 : validateField b.petal_length with _ | pl <;>
    rcases hv4 : validateField b.petal_width with _ | pw <;>
    simp_all [validateBody]
  refine ⟨hb, fun m => ?_, fun m tid => ?_⟩
  · unfold appHandle
    rw [hb]
  · unfold deployHandle
    rw [hb]

/-- C7 witness: the concrete body with a missing sepal_length field is
rejected regardless of the model. -/
theorem c7_validation_witness :
    validateBody badBody = none ∧
    appHandle none badBody = .validationError ∧
    deployHandle none badBody "0" = .validationError := by
  have h := c7_validation badBody (Or.inl rfl)
  exact ⟨h.1, h.2.1 none, h.2.2 none "0"⟩

/-- C8 counterexample: the body whose sepal_length is the NaN token
passes validation, and the resulting feature vector contains a
non-finite value, so finiteness is not guaranteed for vectors reaching
the model. -/
theorem c8_counterexample :
    validateBody nanBody = some nanInput ∧
    nanInput.sepal_length = PyFloat.nan ∧
    nanInput.toFeatures.all PyFloat.isFinite = false :=
  ⟨rfl, rfl, rfl⟩

/-- C8 (amended): every input that passes validation yields a feature
vector of exactly four values, ordered sepal length, sepal width, petal
length, petal width, each obtained from the corresponding present body
field by the float coercion; finiteness, however, is not enforced, since
the float fields also accept NaN and the infinities. -/
theorem c8_vector_shape (b : RequestBody) (i : IrisInput)
    (h : validateBody b = some i) :
    i.toFeatures.length = 4 ∧
    i.toFeatures = [i.sepal_length, i.sepal_width, i.petal_length, i.petal_width] ∧
    validateField b.sepal_length = some i.sepal_length ∧
    validateField b.sepal_width = some i.sepal_width ∧
    validateField b.petal_length = some i.petal_length ∧
    validateField b.petal_width = some i.petal_width := by
  rcases hv1 : validateField b.sepal_length with _ | sl <;>
  rcases hv2 : validateField b.sepal_width with _ | sw <;>
  rcases hv3 : validateField b.petal_length with _ | pl <;>
  rcases hv4 : validateField b.petal_width with _ | pw <;>
  simp_all [validateBody] <;>
  subst h <;>
  exact ⟨rfl, rfl, rfl, rfl, rfl, rfl⟩

/-- C8 witness: the amended statement instantiated at the concrete valid
body. -/
theorem c8_vector_shape_witness :
    sampleInput.toFeatures.length = 4 :=
  (c8_vector_shape goodBody sampleInput rfl).1

/-- C9: a predict request leaves the whole service state, model
included, unchanged, so a second identical request sees the same state
and, predict being a function of the model and the input, both variants
return responses equal to those of the first request, species fields
included. -/
theorem c9_idempotent (st : ServiceState) (i : IrisInput) (tid : String) :
    stepOp st (.predictReq i tid) = st ∧
    stepOp (stepOp st (.predictReq i tid)) (.predictReq i tid) = st ∧
    deployPredict st.model i tid =
      deployPredict (stepOp st (.predictReq i tid)).model i tid ∧
    appPredict st.model i = appPredict (stepOp st (.predictReq i tid)).model i :=
  ⟨rfl, rfl, rfl, rfl⟩

/-- C10: on every successful prediction in deploy.py the payload carries
the normalized label in both its predicted_label and its species fields,
which are therefore equal; the raw model output appears in neither. -/
theorem c10_predicted_label_eq_species (m : Model) (i : IrisInput) (tid : String)
    (raw : RawLabel) (h : m.predict i.toFeatures = .ok raw) :
    deployPredict (some m) i tid =
      .success ⟨"success", speciesDeploy raw, speciesDeploy raw, tid⟩ ∧
    (DeployPayload.mk "success" (speciesDeploy raw) (speciesDeploy raw)
      tid).predicted_label =
    (DeployPayload.mk "success" (speciesDeploy raw) (speciesDeploy raw)
      tid).species := by
  refine ⟨?_, rfl⟩
  simp only [deployPredict, h]

/-- C10 witness: the statement instantiated at a concrete model
returning the index 1. -/
theorem c10_witness :
    deployPredict (some (Model.mk fun _ => Except.ok (RawLabel.idx 1)))
        sampleInput "t" =
      .success ⟨"success", speciesDeploy (.idx 1), speciesDeploy (.idx 1), "t"⟩ :=
  (c10_predicted_label_eq_species (Model.mk fun _ => Except.ok (RawLabel.idx 1))
    sampleInput "t" (.idx 1) rfl).1

end Iris
